import Mathlib

/-!
# mantl-api: the HTTP boundary (`api/api.go`) and the bootstrap (`main.go`)

A shallow embedding of the two source files of the repository.

* Go strings are Lean `String`s; the format scanner of `fmt` works on the list of their
  characters.
* A Go `error` value is `Option GoError` (`none` is `nil`); a Go pointer that may be `nil`
  is an `Option`.
* Handlers are functions from the request and the collaborators' answers to an `Outcome`:
  the final `ResponseWriter`, the ordered list of orchestrator calls, the log, and whether
  the handler panicked.
* The bootstrap runs in `Run`, a trace of effects that stops at the first `log.Fatalf`.
-/

namespace MantlApi

/-! ## Errors -/

/-- Modelled from the spec: the error taxonomy of section 7; the Go error types of the
`install` package are not among the source files. -/
inductive ErrorKind where
  | ParseError
  | ValidationError
  | NotFoundError
  | UpstreamError
  | SyncError
deriving DecidableEq, Repr

/-- A non-nil Go `error`: its kind and the text of `Error()`. -/
structure GoError where
  kind : ErrorKind
  msg : String
deriving DecidableEq, Repr

/-- The verb `%v` applied to an `error` operand: `<nil>` for the nil error, else `Error()`. -/
def fmtV : Option GoError → String
  | none => "<nil>"
  | some e => e.msg

/-! ## `fmt.Fprintf` with a format and no operands

`installPackage` calls `fmt.Fprintf(w, marathonResponse)`: the scheduler's response is the
FORMAT, and there are no operands.  What follows is `(*pp).doPrintf` of Go's `fmt` with
`len(a) = 0`; the index `i` into `format` is represented by the suffix `format[i:]`. -/

namespace Fmt

/-- `tooLarge(x)`: `x > 1e6` (the number scanned is never negative). -/
def tooLarge (x : Nat) : Bool := decide (1000000 < x)

/-- The loop of `parsenum`: scans decimal digits; on overflow it gives `(0, false, end)`. -/
def parsenumLoop : List Char → Nat → Bool → Nat × Bool × List Char
  | [], num, isnum => (num, isnum, [])
  | c :: cs, num, isnum =>
    if '0' ≤ c ∧ c ≤ '9' then
      if tooLarge num then (0, false, [])
      else parsenumLoop cs (num * 10 + (c.toNat - '0'.toNat)) true
    else (num, isnum, c :: cs)

/-- `parsenum(s, start, end)` on the segment `s[start:end]`: the number, whether a number was
read, and the part of the segment left unread (`s[newi:end]`). -/
def parsenum (seg : List Char) : Nat × Bool × List Char :=
  match seg with
  | [] => (0, false, [])
  | _ => parsenumLoop seg 0 false

/-- `parseArgNumber(format)` for a `format` that starts with `[`: the index, the format after
the `wid` bytes consumed, and `ok`. -/
def parseArgNumber (format : List Char) : Int × List Char × Bool :=
  if format.length < 3 then (0, format.drop 1, false)
  else
    let rest := format.drop 1
    let inside := rest.takeWhile (fun c => c != ']')
    match rest.dropWhile (fun c => c != ']') with
    | [] => (0, format.drop 1, false)
    | _ :: after =>
      match parsenum inside with
      | (width, ok, unread) =>
        if !ok || !unread.isEmpty then (0, after, false)
        else ((width : Int) - 1, after, true)

/-- `(*pp).argNumber(argNum, format, i, numArgs)` with `numArgs = 0`: the format after the
index, `found`, and the new value of `p.goodArgNum`. With no operands an index is never in
range, so a bracket always clears `goodArgNum`. -/
def argNumber (format : List Char) (goodArgNum : Bool) : List Char × Bool × Bool :=
  match format with
  | '[' :: _ =>
    match parseArgNumber format with
    | (_, after, ok) => (after, ok, false)
  | _ => (format, false, goodArgNum)

/-- The flag loop (`simpleFormat`): with no operands the fast path for simple verbs is never
taken, so the loop only skips the flag characters. -/
def skipFlags : List Char → List Char
  | [] => []
  | c :: cs =>
    if c = '#' ∨ c = '0' ∨ c = '+' ∨ c = '-' ∨ c = ' ' then skipFlags cs else c :: cs

/-- The width step: `*` has no operand to read (`%!(BADWIDTH)`), else `parsenum`. -/
def width (format : List Char) (afterIndex goodArgNum : Bool) :
    List Char × List Char × Bool × Bool :=
  match format with
  | '*' :: rest => ("%!(BADWIDTH)".data, rest, false, goodArgNum)
  | _ =>
    match parsenum format with
    | (_, widPresent, rest) =>
      ([], rest, afterIndex, if afterIndex && widPresent then false else goodArgNum)

/-- The precision step, entered on a `.` that is not the last byte of the format
(`i+1 < end && format[i] == '.'`); a `.` that ends the format is left to be read as the
verb. -/
def precision (format : List Char) (afterIndex goodArgNum : Bool) :
    List Char × List Char × Bool × Bool :=
  match format with
  | '.' :: c :: cs =>
    let goodArgNum := if afterIndex then false else goodArgNum
    match argNumber (c :: cs) goodArgNum with
    | (rest, afterIndex, goodArgNum) =>
      match rest with
      | '*' :: rest => ("%!(BADPREC)".data, rest, false, goodArgNum)
      | _ =>
        match parsenum rest with
        | (_, _, rest) => ([], rest, afterIndex, goodArgNum)
  | _ => ([], format, afterIndex, goodArgNum)

/-- One verb: `format` is what follows the `%`. Gives the text written and the format left,
`none` when the loop is left by `break` (`%!(NOVERB)`). -/
def verb (format : List Char) : List Char × Option (List Char) :=
  match argNumber (skipFlags format) true with
  | (format, afterIndex, goodArgNum) =>
    match width format afterIndex goodArgNum with
    | (out1, format, afterIndex, goodArgNum) =>
      match precision format afterIndex goodArgNum with
      | (out2, format, afterIndex, goodArgNum) =>
        match (if !afterIndex then argNumber format goodArgNum
               else (format, afterIndex, goodArgNum)) with
        | (format, _, goodArgNum) =>
          match format with
          | [] => (out1 ++ out2 ++ "%!(NOVERB)".data, none)
          | v :: rest =>
            if v = '%' then (out1 ++ out2 ++ ['%'], some rest)
            else if !goodArgNum then
              (out1 ++ out2 ++ "%!".data ++ [v] ++ "(BADINDEX)".data, some rest)
            else (out1 ++ out2 ++ "%!".data ++ [v] ++ "(MISSING)".data, some rest)

/-- The `formatLoop` of `doPrintf`: copy up to the next `%`, process one verb, repeat. Every
round consumes the `%`, so `format.length + 1` rounds are enough. -/
def formatLoop : Nat → List Char → List Char
  | 0, _ => []
  | fuel + 1, format =>
    let lit := format.takeWhile (fun c => c != '%')
    match format.dropWhile (fun c => c != '%') with
    | [] => lit
    | _ :: afterPercent =>
      match verb afterPercent with
      | (out, none) => lit ++ out
      | (out, some rest) => lit ++ out ++ formatLoop fuel rest

/-- `fmt.Sprintf(format)` with no operands. -/
def Sprintf0 (format : String) : String :=
  String.mk (formatLoop (format.data.length + 1) format.data)

end Fmt

/-! ## `net/http`: the response writer -/

/-- An `http.ResponseWriter`: the header map, the status once written, the body so far, and
the connection under it: `faults` holds what the coming calls of `Write` meet, in order;
`none` (or the end of the list) is a write that succeeds, `some (n, err)` a write that puts
out `n` characters and returns `err`. -/
structure ResponseWriter where
  header : List (String × String)
  status : Option Nat
  body : String
  faults : List (Option (Nat × GoError))
deriving DecidableEq, Repr

namespace ResponseWriter

/-- A fresh response on a connection with the given write faults: nothing written. -/
def fresh (faults : List (Option (Nat × GoError))) : ResponseWriter :=
  { header := [], status := none, body := "", faults := faults }

/-- A fresh response on a connection whose writes all succeed. -/
def new : ResponseWriter := fresh []

/-- `w.Header().Set(key, value)`. -/
def headerSet (w : ResponseWriter) (key value : String) : ResponseWriter :=
  { w with header := (key, value) :: w.header.filter (fun kv => kv.1 != key) }

/-- `w.WriteHeader(code)`: the first call fixes the status, later calls are ignored. -/
def WriteHeader (w : ResponseWriter) (code : Nat) : ResponseWriter :=
  match w.status with
  | some _ => w
  | none => { w with status := some code }

/-- The writer after `w.Write(data)`: status 200 is written first if no status was written
yet, then the data, or the part of it that the connection takes. -/
def Write (w : ResponseWriter) (data : String) : ResponseWriter :=
  let w := w.WriteHeader 200
  match w.faults with
  | [] => { w with body := w.body ++ data }
  | none :: faults => { w with body := w.body ++ data, faults := faults }
  | some (n, _) :: faults =>
    { w with body := w.body ++ String.mk (data.data.take n), faults := faults }

/-- The error returned by `w.Write(data)`. -/
def WriteErr (w : ResponseWriter) (_data : String) : Option GoError :=
  match w.faults with
  | some (_, err) :: _ => some err
  | _ => none

end ResponseWriter

/-! ## The `install` package as seen from the handlers -/

/-- Modelled from the spec: `install.PackageRequest`, whose declaration is not among the
source files: name, optional version, options. -/
structure PackageRequest where
  Name : String
  Version : Option String
  Options : List (String × String)
deriving DecidableEq, Repr

/-- Modelled from the spec: the package definition returned by `Packages` and `Package`. -/
structure PackageDefinition where
  name : String
  version : String
deriving DecidableEq, Repr

/-- Modelled from the spec: the handle of a running scheduler job (`InstalledApp`). -/
structure App where
  id : String
deriving DecidableEq, Repr

/-- The answers of `*install.Install`, of `install.NewPackageRequest` and of the marshalling
step of the JSON encoder, none of which is among the source files. `NewPackageRequest` has
Go's result type `(*PackageRequest, error)`: a pointer that may be nil and an error that may
be nil. -/
structure Install where
  Packages : Except GoError (List PackageDefinition)
  Package : String → Except GoError PackageDefinition
  InstallPackage : PackageRequest → Except GoError String
  FindInstalled : PackageRequest → Option App
  UninstallPackage : App → Option GoError
  NewPackageRequest : String → Option PackageRequest × Option GoError
  MarshalPackages : List PackageDefinition → Except GoError String
  MarshalPackage : PackageDefinition → Except GoError String

/-- A method of `*install.Install` called by a handler. -/
inductive Call where
  | Packages
  | Package (name : String)
  | InstallPackage (request : PackageRequest)
  | FindInstalled (request : PackageRequest)
  | UninstallPackage (app : App)
deriving DecidableEq, Repr

/-- What `ioutil.ReadAll(req.Body)` returns. -/
structure Reader where
  data : String
  err : Option GoError
deriving DecidableEq, Repr

/-- The part of `*http.Request` the handlers touch. -/
structure Request where
  Header : List (String × String)
  Body : Reader
deriving DecidableEq, Repr

/-- `req.Header.Add(key, value)`. -/
def Request.headerAdd (req : Request) (key value : String) : Request :=
  { req with Header := req.Header ++ [(key, value)] }

/-- What a handler leaves behind: the response, the request, the calls made on the
orchestrator in order, the log, and whether the handler panicked. -/
structure Outcome where
  w : ResponseWriter
  req : Request
  calls : List Call
  log : List String
  panicked : Bool
deriving DecidableEq, Repr

/-- The `Api` struct. -/
structure Api where
  listen : String
  install : Install

/-- The function `NewApi`. -/
def NewApi (listen : String) (install : Install) : Api := { listen := listen, install := install }

namespace Api

/-- The routes registered by `Start`: method, path and handler. -/
def routes : List (String × String × String) :=
  [ ("GET", "/health", "health"),
    ("GET", "/1/packages", "packages"),
    ("POST", "/1/packages", "installPackage"),
    ("GET", "/1/packages/:name", "describePackage"),
    ("DELETE", "/1/packages/:name", "uninstallPackage") ]

/-- The method `writeError`: status 500, the message logged and written with a newline. -/
def writeError (_api : Api) (w : ResponseWriter) (msg : String) (err : Option GoError) :
    ResponseWriter × List String :=
  let w := w.WriteHeader 500
  let m := msg ++ ": " ++ fmtV err
  (w.Write (m ++ "\n"), [m])

/-- What `parsePackageRequest` does: returns a pair, or panics. -/
inductive Parsed where
  | ret (pkgRequest : Option PackageRequest) (err : Option GoError)
  | panic
deriving DecidableEq, Repr

/-- The method `parsePackageRequest`. The assignment `pkgRequest.Name = pkgName` dereferences
`pkgRequest`: on a nil pointer it panics. The second component is the log. -/
def parsePackageRequest (api : Api) (r : Reader) (pkgName : String) : Parsed × List String :=
  match r.err with
  | some err => (.ret none (some err), ["Unable to read request body: " ++ err.msg])
  | none =>
    match api.install.NewPackageRequest r.data with
    | (_, some err) => (.ret none (some err), [])
    | (pkgRequest, none) =>
      if pkgName ≠ "" then
        match pkgRequest with
        | none => (.panic, [])
        | some q => (.ret (some { q with Name := pkgName }) none, [])
      else (.ret pkgRequest none, [])

/-- `json.NewEncoder(w).Encode(v)`, given what marshalling `v` gives: a marshal error is
returned with nothing written; otherwise the text and a newline go out in one `Write`, and
the error of that `Write`, if any, is returned. -/
def Encode (w : ResponseWriter) (marshalled : Except GoError String) :
    ResponseWriter × Option GoError :=
  match marshalled with
  | .error err => (w, some err)
  | .ok json => (w.Write (json ++ "\n"), w.WriteErr (json ++ "\n"))

/-- The handler `health`. -/
def health (_api : Api) (w : ResponseWriter) (req : Request) : Outcome :=
  let w := w.WriteHeader 200
  { w := w.Write (Fmt.Sprintf0 "OK"), req := req, calls := [], log := [], panicked := false }

/-- The handler `packages` (GET /1/packages). -/
def packages (api : Api) (w : ResponseWriter) (req : Request) : Outcome :=
  let w := w.headerSet "Content-Type" "application/json"
  match api.install.Packages with
  | .error err =>
    let (w, l) := api.writeError w "Could not retrieve package list" (some err)
    { w := w, req := req, calls := [.Packages], log := l, panicked := false }
  | .ok pkgs =>
    match Encode w (api.install.MarshalPackages pkgs) with
    | (w, some err) =>
      let (w, l) := api.writeError w "Could not retrieve package list" (some err)
      { w := w, req := req, calls := [.Packages], log := l, panicked := false }
    | (w, none) => { w := w, req := req, calls := [.Packages], log := [], panicked := false }

/-- The handler `describePackage` (GET /1/packages/:name). -/
def describePackage (api : Api) (w : ResponseWriter) (req : Request) (name : String) :
    Outcome :=
  let w := w.headerSet "Content-Type" "application/json"
  match api.install.Package name with
  | .error err =>
    let (w, l) := api.writeError w ("Could not find package " ++ name) (some err)
    { w := w, req := req, calls := [.Package name], log := l, panicked := false }
  | .ok pkg =>
    match Encode w (api.install.MarshalPackage pkg) with
    | (w, some err) =>
      let (w, l) := api.writeError w ("Could not encode package " ++ name) (some err)
      { w := w, req := req, calls := [.Package name], log := l, panicked := false }
    | (w, none) =>
      { w := w, req := req, calls := [.Package name], log := [], panicked := false }

/-- The handler `installPackage` (POST /1/packages). -/
def installPackage (api : Api) (w : ResponseWriter) (req : Request) : Outcome :=
  let req := req.headerAdd "Accept" "application/json"
  match api.parsePackageRequest req.Body "" with
  | (.panic, l) => { w := w, req := req, calls := [], log := l, panicked := true }
  | (.ret pkgRequest err, l) =>
    match err, pkgRequest with
    | none, some q =>
      match api.install.InstallPackage q with
      | .error e =>
        let (w, l') := api.writeError w ("Could not install " ++ q.Name ++ " package") (some e)
        { w := w, req := req, calls := [.InstallPackage q], log := l ++ l', panicked := false }
      | .ok marathonResponse =>
        let w := w.headerSet "Content-Type" "application/json"
        let w := w.WriteHeader 201
        { w := w.Write (Fmt.Sprintf0 marathonResponse), req := req,
          calls := [.InstallPackage q], log := l, panicked := false }
    | err, _ =>
      let (w, l') := api.writeError w "Could not parse package request" err
      { w := w, req := req, calls := [], log := l ++ l', panicked := false }

/-- The handler `uninstallPackage` (DELETE /1/packages/:name); `name` is `ps.ByName("name")`. -/
def uninstallPackage (api : Api) (w : ResponseWriter) (req : Request) (name : String) :
    Outcome :=
  let req := req.headerAdd "Accept" "application/json"
  match api.parsePackageRequest req.Body name with
  | (.panic, l) => { w := w, req := req, calls := [], log := l, panicked := true }
  | (.ret pkgRequest err, l) =>
    match err, pkgRequest with
    | none, some q =>
      match api.install.FindInstalled q with
      | none =>
        { w := w.WriteHeader 404, req := req, calls := [.FindInstalled q], log := l,
          panicked := false }
      | some app =>
        match api.install.UninstallPackage app with
        | some e =>
          let (w, l') :=
            api.writeError w ("Could not uninstall " ++ q.Name ++ " package") (some e)
          { w := w, req := req, calls := [.FindInstalled q, .UninstallPackage app],
            log := l ++ l', panicked := false }
        | none =>
          { w := w.WriteHeader 204, req := req,
            calls := [.FindInstalled q, .UninstallPackage app], log := l, panicked := false }
    | err, _ =>
      let (w, l') := api.writeError w "Could not parse package request" err
      { w := w, req := req, calls := [], log := l ++ l', panicked := false }

end Api

/-! ## Sample collaborators used to evaluate the handlers -/

/-- A request with the given body, read without error. -/
def requestWithBody (body : String) : Request :=
  { Header := [], Body := { data := body, err := none } }

/-- A request body: the JSON object with the one member `name`, of value `redis`. -/
def redisBody : String := "\x7b\"name\":\"redis\"\x7d"

/-- A scheduler response: the JSON object with `id` of value `/redis` and `cmd` of value
`echo 100%`. -/
def percentResponse : String := "\x7b\"id\":\"/redis\",\"cmd\":\"echo 100%\"\x7d"

/-- The request `redis` with no version and no options. -/
def redisRequest : PackageRequest := { Name := "redis", Version := none, Options := [] }

/-- A collaborator whose parser accepts every body as `redisRequest`, with nothing installed
and a scheduler that answers `response` to an install. -/
def sampleInstall (response : String) : Install where
  Packages := .ok []
  Package := fun name => .error { kind := .NotFoundError, msg := "package not found: " ++ name }
  InstallPackage := fun _ => .ok response
  FindInstalled := fun _ => none
  UninstallPackage := fun _ => none
  NewPackageRequest := fun _ => (some redisRequest, none)
  MarshalPackages := fun _ => .ok "[]"
  MarshalPackage := fun p => .ok p.name

/-! ## `main.go`: configuration -/

namespace Main

/-- The value of a flag: `String(...)` or `Bool(...)`. -/
inductive FlagValue where
  | str (s : String)
  | bool (b : Bool)
deriving DecidableEq, Repr

/-- The persistent flags registered by `main`, with their defaults. -/
def persistentFlags : List (String × FlagValue) :=
  [ ("log-level", .str "info"),
    ("log-format", .str "text"),
    ("consul", .str "http://localhost:8500"),
    ("marathon", .str ""),
    ("marathon-user", .str ""),
    ("marathon-password", .str ""),
    ("marathon-no-verify-ssl", .bool false),
    ("mesos", .str ""),
    ("mesos-principal", .str ""),
    ("mesos-secret", .str ""),
    ("mesos-no-verify-ssl", .bool false),
    ("listen", .str ":4001"),
    ("zookeeper", .str ""),
    ("force-sync", .bool false) ]

/-- The state of `viper`: the values set on the command line or through the `MANTL_API_`
environment; every other key has its flag default. -/
structure Viper where
  set : List (String × FlagValue)
deriving DecidableEq, Repr

namespace Viper

/-- The value bound to a key: what was set, else the flag default. -/
def find (v : Viper) (key : String) : Option FlagValue :=
  match v.set.lookup key with
  | some x => some x
  | none => persistentFlags.lookup key

/-- `strconv.ParseBool`, with `false` for what does not parse. -/
def ParseBool (s : String) : Bool :=
  s = "1" || s = "t" || s = "T" || s = "TRUE" || s = "true" || s = "True"

/-- `viper.GetString(key)`. -/
def GetString (v : Viper) (key : String) : String :=
  match v.find key with
  | some (.str s) => s
  | some (.bool b) => if b then "true" else "false"
  | none => ""

/-- `viper.GetBool(key)`. -/
def GetBool (v : Viper) (key : String) : Bool :=
  match v.find key with
  | some (.bool b) => b
  | some (.str s) => ParseBool s
  | none => false

end Viper

/-! ## `strings.Split(s, ",")` -/

/-- Splitting a list of characters at every comma; never the empty list. -/
def splitComma : List Char → List (List Char)
  | [] => [[]]
  | c :: cs =>
    if c = ',' then [] :: splitComma cs
    else
      match splitComma cs with
      | [] => [[c]]
      | w :: ws => (c :: w) :: ws

/-- Joining with commas, the inverse of `splitComma`. -/
def joinComma : List (List Char) → List Char
  | [] => []
  | [w] => w
  | w :: w' :: ws => w ++ ',' :: joinComma (w' :: ws)

/-- `strings.Split(s, ",")`. -/
def Split (s : String) : List String := (splitComma s.data).map String.mk

/-- `strings.Join(xs, ",")`. -/
def Join (xs : List String) : String := String.mk (joinComma (xs.map String.data))

/-! ## Clients, sources and effects -/

/-- The consul client: the scheme and address put into its configuration. -/
structure Client where
  scheme : String
  address : String
deriving DecidableEq, Repr

/-- What `marathon.NewMarathon` was given. -/
structure Marathon where
  url : String
  user : String
  password : String
  noVerifySsl : Bool
deriving DecidableEq, Repr

/-- What `mesos.NewMesos` was given. -/
structure Mesos where
  url : String
  principal : String
  secret : String
  noVerifySsl : Bool
deriving DecidableEq, Repr

/-- What `zookeeper.NewZookeeper` was given. -/
structure Zookeeper where
  servers : List String
deriving DecidableEq, Repr

/-- The value built by `install.NewInstall(client, marathon, mesos, zk)`; the `sync`
subcommand passes nil for the last three. -/
structure Install where
  client : Client
  marathon : Option Marathon
  mesos : Option Mesos
  zookeeper : Option Zookeeper
deriving DecidableEq, Repr

/-- The enumeration `install.SourceType`; `Git` is the only value the bootstrap uses. -/
inductive SourceType where
  | Git
deriving DecidableEq, Repr

/-- The struct `install.Source`. -/
structure Source where
  Name : String
  Path : String
  SourceType : SourceType
  Index : Int
deriving DecidableEq, Repr

/-- An effect of the bootstrap on its collaborators. -/
inductive Event where
  | ParseUrl (url : String)
  | Debugf (msg : String)
  | NewClient (scheme address : String)
  | KVGet (key : String)
  | NewDiscovery (service tag scheme defaultUrl : String)
  | NewMarathon (url user password : String) (noVerifySsl : Bool)
  | NewMesos (url principal secret : String) (noVerifySsl : Bool)
  | NewZookeeper (servers : List String)
  | NewInstall (inst : Install)
  | SyncSources (inst : Install) (sources : List Source) (force : Bool)
  | ApiStart (listen : String) (inst : Install)
  | Info (msg : String)
  | ListenAndServe (listen : String)
  | Fatalf (msg : String)
  | Fatal (msg : String)
deriving DecidableEq, Repr

/-- A run of the bootstrap: the effects in order, and the value returned; `none` when the
process exited in `log.Fatalf`. -/
structure Run (α : Type) where
  trace : List Event
  result : Option α

namespace Run

/-- Returning a value without effect. -/
def ret {α : Type} (a : α) : Run α := { trace := [], result := some a }

/-- Sequencing: nothing runs after the process has exited. -/
def andThen {α β : Type} (m : Run α) (f : α → Run β) : Run β :=
  match m.result with
  | none => { trace := m.trace, result := none }
  | some a => { trace := m.trace ++ (f a).trace, result := (f a).result }

/-- One effect. -/
def emit (e : Event) : Run Unit := { trace := [e], result := some () }

/-- The call `log.Fatalf`: logs and exits the process. -/
def Fatalf {α : Type} (msg : String) : Run α := { trace := [.Fatalf msg], result := none }

/-- The call `log.Fatal`: logs and exits the process. -/
def Fatal {α : Type} (msg : String) : Run α := { trace := [.Fatal msg], result := none }

/-- Whether the process exited in `log.Fatalf`. -/
def fatal {α : Type} (m : Run α) : Bool := m.result.isNone

end Run

instance : Monad Run where
  pure := Run.ret
  bind := Run.andThen

/-- The collaborators of the bootstrap, none of which is among the source files: `viper`,
`utils/http.ParseUrl`, the consul client, `NewDiscovery`, the client constructors and
`http.ListenAndServe`. `ListenAndServe` answers the error it returns with, as when the
address cannot be bound; `none` is a listener that serves and never returns. -/
structure Env where
  viper : Viper
  ParseUrl : String → Except GoError (String × String)
  NewClient : String → String → Option GoError
  KVGet : Client → String → Option GoError
  NewDiscovery : Client → String → String → String → String → String
  NewMarathon : String → String → String → Bool → Option GoError
  NewMesos : String → String → String → Bool → Option GoError
  ListenAndServe : String → Option GoError

/-- The function `testConsul`: one read of the key `mantl-install`. -/
def testConsul (env : Env) (client : Client) : Run (Option GoError) := do
  Run.emit (.KVGet "mantl-install")
  pure (env.KVGet client "mantl-install")

/-- The function `consulClient`. -/
def consulClient (env : Env) : Run Client := do
  let url := env.viper.GetString "consul"
  Run.emit (.ParseUrl url)
  match env.ParseUrl url with
  | .error err => Run.Fatalf ("Could not create consul client: " ++ err.msg)
  | .ok (scheme, address) =>
    Run.emit (.Debugf ("Using Consul at " ++ address ++ " over " ++ scheme))
    Run.emit (.NewClient scheme address)
    match env.NewClient scheme address with
    | some err => Run.Fatalf ("Could not create consul client: " ++ err.msg)
    | none =>
      let client : Client := { scheme := scheme, address := address }
      match ← testConsul env client with
      | some err => Run.Fatalf ("Could not connect to consul: " ++ err.msg)
      | none => pure client

/-- The expression `NewDiscovery(client, service, tag, scheme, defaultUrl).discoveredUrl`. -/
def discoveredUrl (env : Env) (client : Client) (service tag scheme defaultUrl : String) :
    Run String := do
  Run.emit (.NewDiscovery service tag scheme defaultUrl)
  pure (env.NewDiscovery client service tag scheme defaultUrl)

/-- The source list built in `sync`, in the order of the slice literal. -/
def sources : List Source :=
  [ { Name := "mantl", Path := "https://github.com/CiscoCloud/mantl-universe.git",
      SourceType := .Git, Index := 1 },
    { Name := "mesosphere", Path := "https://github.com/mesosphere/universe.git",
      SourceType := .Git, Index := 0 },
    { Name := "mesosphere-multiverse", Path := "https://github.com/mesosphere/multiverse.git",
      SourceType := .Git, Index := 2 } ]

/-- The function `sync`: with no `Install` it connects to consul itself. -/
def sync (env : Env) (inst : Option Install) (force : Bool) : Run Unit := do
  let inst ← (match inst with
    | none => do
      let client ← consulClient env
      let i : Install := { client := client, marathon := none, mesos := none, zookeeper := none }
      Run.emit (.NewInstall i)
      pure i
    | some i => pure i)
  Run.emit (.SyncSources inst sources force)

/-- The method `Start` of `api.go`, called at the end of `start`: the routes are registered,
the start is logged, and `log.Fatal(http.ListenAndServe(api.listen, router))` serves; when
`ListenAndServe` returns, with its error, the process exits. -/
def apiStart (env : Env) (listen : String) (inst : Install) : Run Unit := do
  Run.emit (.ApiStart listen inst)
  Run.emit (.Info "Starting listener")
  Run.emit (.ListenAndServe listen)
  match env.ListenAndServe listen with
  | some err => Run.Fatal err.msg
  | none => pure ()

/-- The function `start`; its result is `some ()` when the process is left serving. -/
def start (env : Env) : Run Unit := do
  let client ← consulClient env
  let marathonUrl := env.viper.GetString "marathon"
  let marathonUrl ← (if marathonUrl = "" then
      discoveredUrl env client "marathon" "" "http" marathonUrl
    else pure marathonUrl)
  let user := env.viper.GetString "marathon-user"
  let password := env.viper.GetString "marathon-password"
  let noVerify := env.viper.GetBool "marathon-no-verify-ssl"
  Run.emit (.NewMarathon marathonUrl user password noVerify)
  match env.NewMarathon marathonUrl user password noVerify with
  | some err => Run.Fatalf ("Could not create marathon client: " ++ err.msg)
  | none =>
    let marathonClient : Marathon :=
      { url := marathonUrl, user := user, password := password, noVerifySsl := noVerify }
    let mesosUrl := env.viper.GetString "mesos"
    let mesosUrl ← (if mesosUrl = "" then
        discoveredUrl env client "mesos" "leader" "http" "http://localhost:5050"
      else pure mesosUrl)
    let principal := env.viper.GetString "mesos-principal"
    let secret := env.viper.GetString "mesos-secret"
    let noVerify := env.viper.GetBool "mesos-no-verify-ssl"
    Run.emit (.NewMesos mesosUrl principal secret noVerify)
    match env.NewMesos mesosUrl principal secret noVerify with
    | some err => Run.Fatalf ("Could not create mesos client: " ++ err.msg)
    | none =>
      let mesosClient : Mesos :=
        { url := mesosUrl, principal := principal, secret := secret, noVerifySsl := noVerify }
      let zkUrls := env.viper.GetString "zookeeper"
      let zkUrls ← (if zkUrls = "" then
          discoveredUrl env client "zookeeper" "" "" "localhost:2181"
        else pure zkUrls)
      let zkServers := Split zkUrls
      Run.emit (.NewZookeeper zkServers)
      let zk : Zookeeper := { servers := zkServers }
      let inst : Install :=
        { client := client, marathon := some marathonClient, mesos := some mesosClient,
          zookeeper := some zk }
      Run.emit (.NewInstall inst)
      sync env (some inst) (env.viper.GetBool "force-sync")
      apiStart env (env.viper.GetString "listen") inst

/-- The `Run` of the root command: `start()`. -/
def rootCmd (env : Env) : Run Unit := start env

/-- The `Run` of the `sync` subcommand: `sync(nil, true)`. -/
def syncCommand (env : Env) : Run Unit := sync env none true

/-! ## The run of `start` in closed form -/

/-- Events of the consul connection. -/
def Event.isConsul : Event → Bool
  | .ParseUrl _ => true
  | .Debugf _ => true
  | .NewClient _ _ => true
  | .KVGet _ => true
  | .Fatalf _ => true
  | _ => false

/-- The call of `Start()`. -/
def Event.isApiStart : Event → Bool
  | .ApiStart _ _ => true
  | _ => false

/-- Whether `start` gets as far as calling `Start()`, the listener. -/
def reachesListener (env : Env) : Bool := (start env).trace.any Event.isApiStart

/-- How the listener ends: the fatal log of the error `ListenAndServe` returned with, or
nothing when it keeps serving. -/
def listenerExit (env : Env) : List Event :=
  match env.ListenAndServe (env.viper.GetString "listen") with
  | some err => [.Fatal err.msg]
  | none => []

/-- The address `start` hands to `marathon.NewMarathon`. -/
def marathonUrl (env : Env) (client : Client) : String :=
  if env.viper.GetString "marathon" = "" then env.NewDiscovery client "marathon" "" "http" ""
  else env.viper.GetString "marathon"

/-- The address `start` hands to `mesos.NewMesos`. -/
def mesosUrl (env : Env) (client : Client) : String :=
  if env.viper.GetString "mesos" = "" then
    env.NewDiscovery client "mesos" "leader" "http" "http://localhost:5050"
  else env.viper.GetString "mesos"

/-- The string `start` splits into the zookeeper servers. -/
def zkUrls (env : Env) (client : Client) : String :=
  if env.viper.GetString "zookeeper" = "" then
    env.NewDiscovery client "zookeeper" "" "" "localhost:2181"
  else env.viper.GetString "zookeeper"

/-- The discovery `start` runs for a service: one call when the configured address is empty,
none otherwise. -/
def discovery (env : Env) (service tag scheme defaultUrl : String) : List Event :=
  if env.viper.GetString service = "" then [.NewDiscovery service tag scheme defaultUrl] else []

/-- The `Install` that `start` builds. -/
def startInstall (env : Env) (client : Client) : Install :=
  { client := client,
    marathon := some
      { url := marathonUrl env client, user := env.viper.GetString "marathon-user",
        password := env.viper.GetString "marathon-password",
        noVerifySsl := env.viper.GetBool "marathon-no-verify-ssl" },
    mesos := some
      { url := mesosUrl env client, principal := env.viper.GetString "mesos-principal",
        secret := env.viper.GetString "mesos-secret",
        noVerifySsl := env.viper.GetBool "mesos-no-verify-ssl" },
    zookeeper := some { servers := Split (zkUrls env client) } }

/-- The call of `marathon.NewMarathon` made by `start`. -/
def marathonCall (env : Env) (client : Client) : Event :=
  .NewMarathon (marathonUrl env client) (env.viper.GetString "marathon-user")
    (env.viper.GetString "marathon-password") (env.viper.GetBool "marathon-no-verify-ssl")

/-- The call of `mesos.NewMesos` made by `start`. -/
def mesosCall (env : Env) (client : Client) : Event :=
  .NewMesos (mesosUrl env client) (env.viper.GetString "mesos-principal")
    (env.viper.GetString "mesos-secret") (env.viper.GetBool "mesos-no-verify-ssl")

/-- The run of `start` once consul has answered, in closed form. -/
def startAfterConsul (env : Env) (ct : List Event) (client : Client) : Run Unit :=
  match env.NewMarathon (marathonUrl env client) (env.viper.GetString "marathon-user")
      (env.viper.GetString "marathon-password") (env.viper.GetBool "marathon-no-verify-ssl") with
  | some err =>
    { trace := ct ++ discovery env "marathon" "" "http" "" ++
        [marathonCall env client, .Fatalf ("Could not create marathon client: " ++ err.msg)],
      result := none }
  | none =>
    match env.NewMesos (mesosUrl env client) (env.viper.GetString "mesos-principal")
        (env.viper.GetString "mesos-secret") (env.viper.GetBool "mesos-no-verify-ssl") with
    | some err =>
      { trace := ct ++ discovery env "marathon" "" "http" "" ++ [marathonCall env client] ++
          discovery env "mesos" "leader" "http" "http://localhost:5050" ++
          [mesosCall env client, .Fatalf ("Could not create mesos client: " ++ err.msg)],
        result := none }
    | none =>
      { trace := ct ++ discovery env "marathon" "" "http" "" ++ [marathonCall env client] ++
          discovery env "mesos" "leader" "http" "http://localhost:5050" ++
          [mesosCall env client] ++
          discovery env "zookeeper" "" "" "localhost:2181" ++
          [ .NewZookeeper (Split (zkUrls env client)),
            .NewInstall (startInstall env client),
            .SyncSources (startInstall env client) sources (env.viper.GetBool "force-sync"),
            .ApiStart (env.viper.GetString "listen") (startInstall env client),
            .Info "Starting listener",
            .ListenAndServe (env.viper.GetString "listen") ] ++ listenerExit env,
        result :=
          match env.ListenAndServe (env.viper.GetString "listen") with
          | some _ => none
          | none => some () }

/-! ## Sample environments used to evaluate the bootstrap -/

/-- An environment in which consul answers and every constructor succeeds; discovery
answers with the name of the service. -/
def sampleEnv (set : List (String × FlagValue)) : Env where
  viper := { set := set }
  ParseUrl := fun _ => .ok ("http", "localhost:8500")
  NewClient := fun _ _ => none
  KVGet := fun _ _ => none
  NewDiscovery := fun _ service _ _ _ => "discovered-" ++ service
  NewMarathon := fun _ _ _ _ => none
  NewMesos := fun _ _ _ _ => none
  ListenAndServe := fun _ => none

/-- The sample environment with a marathon constructor that fails. -/
def marathonDownEnv : Env :=
  { sampleEnv [] with
    NewMarathon := fun _ _ _ _ => some { kind := .UpstreamError, msg := "no marathon" } }

/-- The sample environment with the three addresses configured. -/
def configuredEnv : Env :=
  sampleEnv
    [ ("marathon", .str "http://marathon.example:8080"),
      ("mesos", .str "http://mesos.example:5050"),
      ("zookeeper", .str "zk1:2181,zk2:2181") ]

/-- The sample environment with a listen address that cannot be bound. -/
def listenerDownEnv : Env :=
  { sampleEnv [] with
    ListenAndServe := fun _ => some { kind := .UpstreamError, msg := "address in use" } }

end Main

/-- A collaborator whose parser rejects every body with a `ParseError`. -/
def rejectingInstall : Install :=
  { sampleInstall "" with
    NewPackageRequest := fun _ => (none, some { kind := .ParseError, msg := "bad json" }) }

/-- A collaborator whose parser answers a nil request with a nil error. -/
def nilRequestInstall : Install :=
  { sampleInstall "" with NewPackageRequest := fun _ => (none, none) }

/-- A collaborator with `redis` installed as `/redis` and a scheduler whose delete fails. -/
def failingUninstall : Install :=
  { sampleInstall "" with
    FindInstalled := fun _ => some { id := "/redis" }
    UninstallPackage := fun _ => some { kind := .UpstreamError, msg := "marathon 503" } }

/-- A collaborator whose registry store is unreachable and whose scheduler refuses jobs. -/
def upstreamDown : Install :=
  { sampleInstall "" with
    Packages := .error { kind := .UpstreamError, msg := "consul down" }
    InstallPackage := fun _ => .error { kind := .ValidationError, msg := "unknown option" } }

/-- The definition of `redis` in the catalog. -/
def redisDefinition : PackageDefinition := { name := "redis", version := "1.0" }

/-- A collaborator whose catalog holds `redis` and whose marshalling fails. -/
def unmarshallable : Install :=
  { sampleInstall "" with
    Packages := .ok [redisDefinition]
    Package := fun _ => .ok redisDefinition
    MarshalPackages := fun _ => .error { kind := .UpstreamError, msg := "unsupported type" }
    MarshalPackage := fun _ => .error { kind := .UpstreamError, msg := "unsupported type" } }

/-- A collaborator whose catalog holds `redis`. -/
def catalogInstall : Install :=
  { sampleInstall "" with
    Packages := .ok [redisDefinition]
    Package := fun _ => .ok redisDefinition }

/-- A request whose body cannot be read. -/
def unreadableRequest : Request :=
  { Header := [], Body := { data := "", err := some { kind := .ParseError, msg := "EOF" } } }

/-- A connection whose first write puts out nothing and fails. -/
def brokenPipe : List (Option (Nat × GoError)) :=
  [some (0, { kind := .UpstreamError, msg := "broken pipe" })]

/-! ## The format scanner -/

namespace Fmt

/-- The digit loop leaves no more than it was given. -/
theorem parsenumLoop_length (seg : List Char) (num : Nat) (isnum : Bool) :
    (parsenumLoop seg num isnum).2.2.length ≤ seg.length := by
  induction seg generalizing num isnum with
  | nil => simp [parsenumLoop]
  | cons c cs ih =>
    simp only [parsenumLoop]
    split
    · split
      · simp
      · exact Nat.le_succ_of_le (ih _ _)
    · simp

/-- The number scan leaves no more than it was given. -/
theorem parsenum_length (seg : List Char) : (parsenum seg).2.2.length ≤ seg.length := by
  cases seg with
  | nil => simp [parsenum]
  | cons c cs => exact parsenumLoop_length _ _ _

/-- Dropping a leading run never lengthens a list. -/
theorem dropWhile_length_le (p : Char → Bool) (l : List Char) :
    (l.dropWhile p).length ≤ l.length := by
  induction l with
  | nil => simp
  | cons c cs ih =>
    simp only [List.dropWhile]
    split
    · exact Nat.le_succ_of_le ih
    · simp

/-- An argument index leaves no more format than it was given. -/
theorem parseArgNumber_length (format : List Char) :
    (parseArgNumber format).2.1.length ≤ format.length := by
  simp only [parseArgNumber]
  split
  · simp
  · have h := dropWhile_length_le (fun c => c != ']') (format.drop 1)
    split
    · simp
    · rename_i x after heq
      rw [heq] at h
      simp at h
      split <;> simp <;> omega

/-- The index step leaves no more format than it was given. -/
theorem argNumber_length (format : List Char) (good : Bool) :
    (argNumber format good).1.length ≤ format.length := by
  simp only [argNumber]
  split
  · exact parseArgNumber_length _
  · simp

/-- The flag loop leaves no more format than it was given. -/
theorem skipFlags_length (format : List Char) : (skipFlags format).length ≤ format.length := by
  induction format with
  | nil => simp [skipFlags]
  | cons c cs ih =>
    simp only [skipFlags]
    split
    · exact Nat.le_succ_of_le ih
    · simp

/-- The width step leaves no more format than it was given. -/
theorem width_length (format : List Char) (a g : Bool) :
    (width format a g).2.1.length ≤ format.length := by
  simp only [width]
  split
  · simp
  · exact parsenum_length _

/-- The precision step leaves no more format than it was given. -/
theorem precision_length (format : List Char) (a g : Bool) :
    (precision format a g).2.1.length ≤ format.length := by
  simp only [precision]
  split
  · rename_i c cs
    have h1 := argNumber_length (c :: cs) (if a then false else g)
    generalize argNumber (c :: cs) (if a then false else g) = r at h1
    obtain ⟨f1, a1, g1⟩ := r
    simp only at h1 ⊢
    split
    · simp at h1 ⊢
      omega
    · have h2 := parsenum_length f1
      generalize parsenum f1 = p at h2
      obtain ⟨n, b, f2⟩ := p
      simp at h1 h2 ⊢
      omega
  · simp

/-- A verb never gives back more format than it was given. -/
theorem verb_length (format rest : List Char) (out : List Char)
    (h : verb format = (out, some rest)) : rest.length < format.length + 1 := by
  have h1 := skipFlags_length format
  have h2 := argNumber_length (skipFlags format) true
  unfold verb at h
  generalize argNumber (skipFlags format) true = r1 at h h2
  obtain ⟨f1, a1, g1⟩ := r1
  have h3 := width_length f1 a1 g1
  simp only at h h2
  generalize width f1 a1 g1 = r2 at h h3
  obtain ⟨o1, f2, a2, g2⟩ := r2
  have h4 := precision_length f2 a2 g2
  simp only at h h3
  generalize precision f2 a2 g2 = r3 at h h4
  obtain ⟨o2, f3, a3, g3⟩ := r3
  have h5 := argNumber_length f3 g3
  simp only at h h4
  have h6 : (if (!a3) = true then argNumber f3 g3 else (f3, a3, g3)).1.length ≤ f3.length := by
    split
    · exact h5
    · simp
  generalize (if (!a3) = true then argNumber f3 g3 else (f3, a3, g3)) = r4 at h h6
  obtain ⟨f4, a4, g4⟩ := r4
  simp only at h h6
  cases f4 with
  | nil => simp at h
  | cons v r =>
    simp only at h
    simp at h6
    split at h
    · simp at h; obtain ⟨-, rfl⟩ := h; omega
    · split at h <;> (simp at h; obtain ⟨-, rfl⟩ := h; omega)

/-- Fuel: any number of rounds above the length of the format gives the same text. -/
theorem formatLoop_fuel (n : Nat) : ∀ (format : List Char) (fuel fuel' : Nat),
    format.length ≤ n → format.length < fuel → format.length < fuel' →
    formatLoop fuel format = formatLoop fuel' format := by
  induction n with
  | zero =>
    intro format fuel fuel' hn hf hf'
    have : format = [] := List.length_eq_zero.mp (Nat.le_zero.mp hn)
    subst this
    cases fuel with
    | zero => simp at hf
    | succ k =>
      cases fuel' with
      | zero => simp at hf'
      | succ k' => simp [formatLoop]
  | succ n ih =>
    intro format fuel fuel' hn hf hf'
    cases fuel with
    | zero => omega
    | succ k =>
      cases fuel' with
      | zero => omega
      | succ k' =>
        simp only [formatLoop]
        have hd := dropWhile_length_le (fun c => c != '%') format
        split
        · rfl
        · rename_i x afterPercent heq
          rw [heq] at hd
          simp at hd
          rcases hv : verb afterPercent with ⟨out, _ | rest⟩
          · rfl
          · have hl := verb_length afterPercent rest out hv
            simp only
            rw [ih rest k k' (by omega) (by omega) (by omega)]

/-- A format without a percent sign is written as it is. -/
theorem Sprintf0_of_no_percent (format : String) (h : '%' ∉ format.data) :
    Sprintf0 format = format := by
  have hall : ∀ c ∈ format.data, (c != '%') = true := by
    intro c hc
    simp only [bne_iff_ne, ne_eq]
    rintro rfl
    exact h hc
  have ht : format.data.takeWhile (fun c => c != '%') = format.data :=
    List.takeWhile_eq_self_iff.mpr hall
  have hd : format.data.dropWhile (fun c => c != '%') = [] :=
    List.dropWhile_eq_nil_iff.mpr hall
  simp [Sprintf0, formatLoop, ht, hd]

/-- Values of the scanner: a lone `%` has no verb, `%%` is a percent sign, a verb has no
operand, and a `.` that ends the format is itself the verb. -/
theorem Sprintf0_values :
    Sprintf0 "100%" = "100%!(NOVERB)" ∧ Sprintf0 "50%% off" = "50% off" ∧
    Sprintf0 "%d items" = "%!d(MISSING) items" ∧ Sprintf0 "%." = "%!.(MISSING)" ∧
    Sprintf0 "%.2f" = "%!f(MISSING)" ∧ Sprintf0 "%[1]d" = "%!d(BADINDEX)" ∧
    Sprintf0 "%*d" = "%!(BADWIDTH)%!d(MISSING)" ∧ Sprintf0 "OK" = "OK" := by
  decide

end Fmt

/-! ## The handlers of `api/api.go` -/

namespace ResponseWriter

/-- A status once written stays: `Write` does not change it. -/
theorem Write_status_of_some (w : ResponseWriter) (data : String) (code : Nat)
    (h : w.status = some code) : (w.Write data).status = some code := by
  simp only [Write, WriteHeader, h]
  split <;> simp [h]

/-- The first `Write` on a response with no status writes status 200. -/
theorem Write_status_of_none (w : ResponseWriter) (data : String) (h : w.status = none) :
    (w.Write data).status = some 200 := by
  simp only [Write, WriteHeader, h]
  split <;> rfl

/-- Setting a header does not write the status. -/
theorem headerSet_status (w : ResponseWriter) (k v : String) :
    (w.headerSet k v).status = w.status := rfl

end ResponseWriter

namespace Api

/-- Adding a request header leaves the body alone. -/
theorem headerAdd_Body (req : Request) (k v : String) : (req.headerAdd k v).Body = req.Body :=
  rfl

/-- On a response with no status yet, `writeError` writes 500. -/
theorem writeError_status (api : Api) (w : ResponseWriter) (msg : String)
    (err : Option GoError) (h : w.status = none) :
    (api.writeError w msg err).1.status = some 500 := by
  simp only [writeError]
  exact ResponseWriter.Write_status_of_some _ _ 500 (by simp [ResponseWriter.WriteHeader, h])

/-- On a response whose status is written, `writeError` leaves it. -/
theorem writeError_status_of_some (api : Api) (w : ResponseWriter) (msg : String)
    (err : Option GoError) (code : Nat) (h : w.status = some code) :
    (api.writeError w msg err).1.status = some code := by
  simp only [writeError]
  exact ResponseWriter.Write_status_of_some _ _ code (by simp [ResponseWriter.WriteHeader, h])

/-- On success the install handler writes status 201 and the scheduler's response passed
through the format scanner; a response without a percent sign is written as it is. -/
theorem installPackage_success (api : Api) (req : Request) (q : PackageRequest) (r : String)
    (hparse : (api.parsePackageRequest req.Body "").1 = Parsed.ret (some q) none)
    (hinstall : api.install.InstallPackage q = .ok r) :
    (api.installPackage ResponseWriter.new req).w.status = some 201 ∧
    (api.installPackage ResponseWriter.new req).w.body = Fmt.Sprintf0 r ∧
    ('%' ∉ r.data → (api.installPackage ResponseWriter.new req).w.body = r) := by
  rcases hp : api.parsePackageRequest req.Body "" with ⟨p, l⟩
  rw [hp] at hparse
  simp only at hparse
  subst hparse
  have hb : (api.installPackage ResponseWriter.new req).w.body = Fmt.Sprintf0 r := by
    simp [installPackage, headerAdd_Body, hp, hinstall, ResponseWriter.Write,
      ResponseWriter.WriteHeader, ResponseWriter.headerSet, ResponseWriter.new,
      ResponseWriter.fresh]
  refine ⟨?_, hb, fun h => by rw [hb, Fmt.Sprintf0_of_no_percent r h]⟩
  simp [installPackage, headerAdd_Body, hp, hinstall, ResponseWriter.Write,
    ResponseWriter.WriteHeader, ResponseWriter.headerSet, ResponseWriter.new,
    ResponseWriter.fresh]

/-- C1, at a scheduler response that contains a percent sign: the install handler writes
status 201, but the body is not the response: the response is used as the format of
`fmt.Fprintf`, so the `%` before the closing quote is read as a verb with a missing operand. -/
theorem installPackage_percent_response_altered :
    (sampleInstall percentResponse).InstallPackage redisRequest = .ok percentResponse ∧
    ((NewApi ":4001" (sampleInstall percentResponse)).installPackage ResponseWriter.new
        (requestWithBody redisBody)).w.status = some 201 ∧
    ((NewApi ":4001" (sampleInstall percentResponse)).installPackage ResponseWriter.new
        (requestWithBody redisBody)).w.body
      = "\x7b\"id\":\"/redis\",\"cmd\":\"echo 100%!\"(MISSING)\x7d" ∧
    ((NewApi ":4001" (sampleInstall percentResponse)).installPackage ResponseWriter.new
        (requestWithBody redisBody)).w.body ≠ percentResponse := by
  refine ⟨rfl, ?_, ?_, ?_⟩ <;> decide

/-- C2: when the body of a DELETE parses and `FindInstalled` is absent, the handler writes
status 404 (not 500), writes no body, does not panic, and calls `FindInstalled` only:
`UninstallPackage` is never called; this on every connection, healthy or not. -/
theorem uninstallPackage_absent_is_404 (api : Api) (faults : List (Option (Nat × GoError)))
    (req : Request) (name : String) (q : PackageRequest)
    (hparse : (api.parsePackageRequest req.Body name).1 = Parsed.ret (some q) none)
    (habsent : api.install.FindInstalled q = none) :
    (api.uninstallPackage (ResponseWriter.fresh faults) req name).w.status = some 404 ∧
    (api.uninstallPackage (ResponseWriter.fresh faults) req name).w.status ≠ some 500 ∧
    (api.uninstallPackage (ResponseWriter.fresh faults) req name).w.body = "" ∧
    (api.uninstallPackage (ResponseWriter.fresh faults) req name).panicked = false ∧
    (api.uninstallPackage (ResponseWriter.fresh faults) req name).calls
      = [Call.FindInstalled q] ∧
    ∀ app, Call.UninstallPackage app ∉
      (api.uninstallPackage (ResponseWriter.fresh faults) req name).calls := by
  have hout : api.uninstallPackage (ResponseWriter.fresh faults) req name =
      { w := (ResponseWriter.fresh faults).WriteHeader 404,
        req := req.headerAdd "Accept" "application/json",
        calls := [Call.FindInstalled q],
        log := (api.parsePackageRequest req.Body name).2, panicked := false } := by
    rcases hp : api.parsePackageRequest req.Body name with ⟨r, l⟩
    rw [hp] at hparse
    simp only at hparse
    subst hparse
    simp only [uninstallPackage, headerAdd_Body, hp, habsent]
  rw [hout]
  refine ⟨rfl, by simp [ResponseWriter.WriteHeader, ResponseWriter.fresh], rfl, rfl, rfl, ?_⟩
  intro app h
  simp at h

/-- The witness of C2: a DELETE of `redis` with nothing installed. -/
theorem uninstallPackage_absent_is_404_witness :
    ((NewApi ":4001" (sampleInstall "")).uninstallPackage ResponseWriter.new
        (requestWithBody redisBody) "redis").w.status = some 404 :=
  (uninstallPackage_absent_is_404 (NewApi ":4001" (sampleInstall "")) []
    (requestWithBody redisBody) "redis" { redisRequest with Name := "redis" } (by decide) rfl).1

/-- C3: when the body is read and `NewPackageRequest` parses it into `q`, a non-empty path
name replaces the name and leaves the version and the options as they are, and the empty
path name (the POST case) returns `q` itself. -/
theorem parsePackageRequest_name_override (api : Api) (body n : String) (q : PackageRequest)
    (hparse : api.install.NewPackageRequest body = (some q, none)) :
    (n ≠ "" →
      (api.parsePackageRequest { data := body, err := none } n).1 =
        Parsed.ret (some { Name := n, Version := q.Version, Options := q.Options }) none) ∧
    (api.parsePackageRequest { data := body, err := none } "").1 = Parsed.ret (some q) none := by
  constructor
  · intro hn
    simp [parsePackageRequest, hparse, hn]
  · simp [parsePackageRequest, hparse]

/-- The witness of C3: the path name `cassandra` replaces the name of the body. -/
theorem parsePackageRequest_name_override_witness :
    ((NewApi ":4001" (sampleInstall "")).parsePackageRequest
        { data := redisBody, err := none } "cassandra").1 =
      Parsed.ret (some { Name := "cassandra", Version := none, Options := [] }) none :=
  (parsePackageRequest_name_override (NewApi ":4001" (sampleInstall ""))
    redisBody "cassandra" redisRequest rfl).1 (by decide)

/-- C4, refuted: `Package("nosuch")` fails with a `NotFoundError` and the describe handler
writes 500, not 404; the parser fails with a `ParseError` and the install handler writes
500, which is not a 4xx status. -/
theorem describePackage_notFound_is_500_not_404 :
    (sampleInstall "").Package "nosuch" =
      .error { kind := .NotFoundError, msg := "package not found: nosuch" } ∧
    ((NewApi ":4001" (sampleInstall "")).describePackage ResponseWriter.new
        (requestWithBody "") "nosuch").w.status = some 500 ∧
    ((NewApi ":4001" (sampleInstall "")).describePackage ResponseWriter.new
        (requestWithBody "") "nosuch").w.status ≠ some 404 ∧
    rejectingInstall.NewPackageRequest "not json" =
      (none, some { kind := .ParseError, msg := "bad json" }) ∧
    ((NewApi ":4001" rejectingInstall).installPackage ResponseWriter.new
        (requestWithBody "not json")).w.status = some 500 := by
  refine ⟨rfl, ?_, ?_, rfl, ?_⟩ <;> decide

/-- C4, amended: on every connection, an error of any kind returned by `Packages`, by
`Package`, by the reading or the parsing of the request body, by `InstallPackage` or by
`UninstallPackage`, a nil request, or a failure of the encoder to marshal, makes the handler
write status 500: a `ParseError`, `ValidationError`, `NotFoundError` or `UpstreamError`
alike. -/
theorem collaborator_error_status_is_500 (api : Api)
    (faults : List (Option (Nat × GoError))) (req : Request) (name : String) :
    (∀ e, api.install.Packages = .error e →
      (api.packages (ResponseWriter.fresh faults) req).w.status = some 500) ∧
    (∀ ps e, api.install.Packages = .ok ps → api.install.MarshalPackages ps = .error e →
      (api.packages (ResponseWriter.fresh faults) req).w.status = some 500) ∧
    (∀ e, api.install.Package name = .error e →
      (api.describePackage (ResponseWriter.fresh faults) req name).w.status = some 500) ∧
    (∀ p e, api.install.Package name = .ok p → api.install.MarshalPackage p = .error e →
      (api.describePackage (ResponseWriter.fresh faults) req name).w.status = some 500) ∧
    (∀ e, req.Body.err = some e →
      (api.installPackage (ResponseWriter.fresh faults) req).w.status = some 500 ∧
      (api.uninstallPackage (ResponseWriter.fresh faults) req name).w.status = some 500) ∧
    (∀ x e, req.Body.err = none → api.install.NewPackageRequest req.Body.data = (x, some e) →
      (api.installPackage (ResponseWriter.fresh faults) req).w.status = some 500 ∧
      (api.uninstallPackage (ResponseWriter.fresh faults) req name).w.status = some 500) ∧
    (req.Body.err = none → api.install.NewPackageRequest req.Body.data = (none, none) →
      (api.installPackage (ResponseWriter.fresh faults) req).w.status = some 500) ∧
    (∀ q e, (api.parsePackageRequest req.Body "").1 = Parsed.ret (some q) none →
      api.install.InstallPackage q = .error e →
      (api.installPackage (ResponseWriter.fresh faults) req).w.status = some 500) ∧
    (∀ q app e, (api.parsePackageRequest req.Body name).1 = Parsed.ret (some q) none →
      api.install.FindInstalled q = some app → api.install.UninstallPackage app = some e →
      (api.uninstallPackage (ResponseWriter.fresh faults) req name).w.status = some 500) := by
  have h0 : ∀ k v, ((ResponseWriter.fresh faults).headerSet k v).status = none :=
    fun _ _ => rfl
  have h1 : (ResponseWriter.fresh faults).status = none := rfl
  refine ⟨?_, ?_, ?_, ?_, ?_, ?_, ?_, ?_, ?_⟩
  · intro e he
    simp only [packages, he]
    exact writeError_status _ _ _ _ (h0 _ _)
  · intro ps e hps he
    simp only [packages, hps, he, Encode]
    exact writeError_status _ _ _ _ (h0 _ _)
  · intro e he
    simp only [describePackage, he]
    exact writeError_status _ _ _ _ (h0 _ _)
  · intro p e hp he
    simp only [describePackage, hp, he, Encode]
    exact writeError_status _ _ _ _ (h0 _ _)
  · intro e he
    constructor
    · simp only [installPackage, headerAdd_Body, parsePackageRequest, he]
      exact writeError_status _ _ _ _ h1
    · simp only [uninstallPackage, headerAdd_Body, parsePackageRequest, he]
      exact writeError_status _ _ _ _ h1
  · intro x e hr he
    constructor
    · simp only [installPackage, headerAdd_Body, parsePackageRequest, hr, he]
      exact writeError_status _ _ _ _ h1
    · simp only [uninstallPackage, headerAdd_Body, parsePackageRequest, hr, he]
      exact writeError_status _ _ _ _ h1
  · intro hr he
    simp only [installPackage, headerAdd_Body, parsePackageRequest, hr, he, ne_eq,
      not_true_eq_false, if_false]
    exact writeError_status api _ _ _ h1
  · intro q e hq he
    rcases hp : api.parsePackageRequest req.Body "" with ⟨p, l⟩
    rw [hp] at hq
    simp only at hq
    subst hq
    simp only [installPackage, headerAdd_Body, hp, he]
    exact writeError_status _ _ _ _ h1
  · intro q app e hq hf he
    rcases hp : api.parsePackageRequest req.Body name with ⟨p, l⟩
    rw [hp] at hq
    simp only at hq
    subst hq
    simp only [uninstallPackage, headerAdd_Body, hp, hf, he]
    exact writeError_status _ _ _ _ h1

/-- The witness of C4: an `UpstreamError` of `Packages`, a marshal failure, the
`NotFoundError` of an unknown package, an unreadable body, a `ParseError` of the parser, a
nil request, a `ValidationError` of `InstallPackage` and an `UpstreamError` of
`UninstallPackage` all give 500. -/
theorem collaborator_error_status_is_500_witness :
    ((NewApi ":4001" upstreamDown).packages (ResponseWriter.fresh brokenPipe)
        (requestWithBody "")).w.status = some 500 ∧
    ((NewApi ":4001" unmarshallable).packages ResponseWriter.new
        (requestWithBody "")).w.status = some 500 ∧
    ((NewApi ":4001" (sampleInstall "")).describePackage ResponseWriter.new
        (requestWithBody "") "nosuch").w.status = some 500 ∧
    ((NewApi ":4001" unmarshallable).describePackage ResponseWriter.new
        (requestWithBody "") "redis").w.status = some 500 ∧
    ((NewApi ":4001" (sampleInstall "")).installPackage ResponseWriter.new
        unreadableRequest).w.status = some 500 ∧
    ((NewApi ":4001" rejectingInstall).uninstallPackage ResponseWriter.new
        (requestWithBody "not json") "redis").w.status = some 500 ∧
    ((NewApi ":4001" nilRequestInstall).installPackage ResponseWriter.new
        (requestWithBody "null")).w.status = some 500 ∧
    ((NewApi ":4001" upstreamDown).installPackage ResponseWriter.new
        (requestWithBody redisBody)).w.status = some 500 ∧
    ((NewApi ":4001" failingUninstall).uninstallPackage ResponseWriter.new
        (requestWithBody redisBody) "redis").w.status = some 500 :=
  ⟨(collaborator_error_status_is_500 (NewApi ":4001" upstreamDown) brokenPipe
      (requestWithBody "") "").1 { kind := .UpstreamError, msg := "consul down" } rfl,
   (collaborator_error_status_is_500 (NewApi ":4001" unmarshallable) []
      (requestWithBody "") "").2.1 [redisDefinition]
      { kind := .UpstreamError, msg := "unsupported type" } rfl rfl,
   (collaborator_error_status_is_500 (NewApi ":4001" (sampleInstall "")) []
      (requestWithBody "") "nosuch").2.2.1
      { kind := .NotFoundError, msg := "package not found: nosuch" } rfl,
   (collaborator_error_status_is_500 (NewApi ":4001" unmarshallable) []
      (requestWithBody "") "redis").2.2.2.1 redisDefinition
      { kind := .UpstreamError, msg := "unsupported type" } rfl rfl,
   ((collaborator_error_status_is_500 (NewApi ":4001" (sampleInstall "")) []
      unreadableRequest "redis").2.2.2.2.1 { kind := .ParseError, msg := "EOF" } rfl).1,
   ((collaborator_error_status_is_500 (NewApi ":4001" rejectingInstall) []
      (requestWithBody "not json") "redis").2.2.2.2.2.1 none
      { kind := .ParseError, msg := "bad json" } rfl rfl).2,
   (collaborator_error_status_is_500 (NewApi ":4001" nilRequestInstall) []
      (requestWithBody "null") "redis").2.2.2.2.2.2.1 rfl rfl,
   (collaborator_error_status_is_500 (NewApi ":4001" upstreamDown) []
      (requestWithBody redisBody) "redis").2.2.2.2.2.2.2.1 redisRequest
      { kind := .ValidationError, msg := "unknown option" } (by decide) rfl,
   (collaborator_error_status_is_500 (NewApi ":4001" failingUninstall) []
      (requestWithBody redisBody) "redis").2.2.2.2.2.2.2.2 redisRequest { id := "/redis" }
      { kind := .UpstreamError, msg := "marathon 503" } (by decide) rfl rfl⟩

/-- When the encoder has marshalled and its `Write` fails, status 200 is already written:
the 500 of `writeError` comes too late and the response keeps 200. -/
theorem encode_write_error_leaves_200 (api : Api) (faults : List (Option (Nat × GoError)))
    (n : Nat) (e : GoError) (req : Request) (name : String) (p : PackageDefinition)
    (json : String) (hp : api.install.Package name = .ok p)
    (hj : api.install.MarshalPackage p = .ok json) :
    (api.describePackage (ResponseWriter.fresh (some (n, e) :: faults)) req name).w.status
      = some 200 := by
  simp only [describePackage, hp, hj, Encode, ResponseWriter.WriteErr, ResponseWriter.headerSet,
    ResponseWriter.fresh]
  exact writeError_status_of_some _ _ _ _ 200 (ResponseWriter.Write_status_of_none _ _ rfl)

/-- C7, at a body for which `NewPackageRequest` answers a nil request and a nil error: the
DELETE handler does not reach its own nil test; `parsePackageRequest` assigns the path name
through the nil pointer and panics, so no status is written (and so not 500). -/
theorem uninstallPackage_nil_request_panics :
    nilRequestInstall.NewPackageRequest "null" = (none, none) ∧
    ((NewApi ":4001" nilRequestInstall).uninstallPackage ResponseWriter.new
        (requestWithBody "null") "redis").panicked = true ∧
    ((NewApi ":4001" nilRequestInstall).uninstallPackage ResponseWriter.new
        (requestWithBody "null") "redis").w.status = none ∧
    ((NewApi ":4001" nilRequestInstall).uninstallPackage ResponseWriter.new
        (requestWithBody "null") "redis").w.status ≠ some 500 ∧
    ((NewApi ":4001" nilRequestInstall).installPackage ResponseWriter.new
        (requestWithBody "null")).w.status = some 500 := by
  decide

/-- The status table of the DELETE handler whenever `parsePackageRequest` returns: 204
exactly when the request is non-nil, the app is found and its uninstall succeeds; 404 exactly
when the request is non-nil and the app is absent; 500 otherwise; and `UninstallPackage` is
called at most once. -/
theorem uninstallPackage_status_table (api : Api) (faults : List (Option (Nat × GoError)))
    (req : Request) (name : String)
    (r : Option PackageRequest) (err : Option GoError)
    (hret : (api.parsePackageRequest req.Body name).1 = Parsed.ret r err) :
    ((api.uninstallPackage (ResponseWriter.fresh faults) req name).w.status = some 204 ↔
      ∃ q app, r = some q ∧ err = none ∧ api.install.FindInstalled q = some app ∧
        api.install.UninstallPackage app = none) ∧
    ((api.uninstallPackage (ResponseWriter.fresh faults) req name).w.status = some 404 ↔
      ∃ q, r = some q ∧ err = none ∧ api.install.FindInstalled q = none) ∧
    ((api.uninstallPackage (ResponseWriter.fresh faults) req name).w.status = some 500 ↔
      r = none ∨ err ≠ none ∨
        ∃ q app e, r = some q ∧ api.install.FindInstalled q = some app ∧
          api.install.UninstallPackage app = some e) ∧
    ((api.uninstallPackage (ResponseWriter.fresh faults) req name).calls.filter
        (fun c => match c with
          | .UninstallPackage _ => true
          | _ => false)).length ≤ 1 ∧
    (api.uninstallPackage (ResponseWriter.fresh faults) req name).panicked = false := by
  have h1 : (ResponseWriter.fresh faults).status = none := rfl
  rcases hp : api.parsePackageRequest req.Body name with ⟨p, l⟩
  rw [hp] at hret
  simp only at hret
  subst hret
  simp only [uninstallPackage, headerAdd_Body, hp]
  cases err with
  | some e =>
    simp [writeError_status api _ _ _ h1]
  | none =>
    cases r with
    | none =>
      simp [writeError_status api _ _ _ h1]
    | some q =>
      cases hf : api.install.FindInstalled q with
      | none => simp [ResponseWriter.WriteHeader, ResponseWriter.fresh, hf]
      | some app =>
        cases hu : api.install.UninstallPackage app with
        | none => simp [ResponseWriter.WriteHeader, ResponseWriter.fresh, hf, hu]
        | some e =>
          simp [writeError_status api _ _ _ h1, hf, hu]

end Api

/-! ## The bootstrap of `main.go` -/

namespace Main

/-- The effects of `consulClient` are effects of the consul connection. -/
theorem consulClient_events (env : Env) :
    ∀ e ∈ (consulClient env).trace, e.isConsul = true := by
  intro e he
  simp only [consulClient, testConsul, bind, pure, Run.andThen, Run.emit, Run.ret,
    Run.Fatalf] at he
  split at he
  · simp at he; rcases he with rfl | rfl <;> rfl
  · simp at he
    split at he
    · simp at he; rcases he with rfl | rfl | rfl |rfl <;> rfl
    · simp at he
      split at he <;> simp at he <;> rcases he with rfl | rfl | rfl |rfl | rfl <;> rfl

/-- When consul cannot be reached, `start` ends where `consulClient` ended. -/
theorem start_of_consul_fatal (env : Env) (ct : List Event)
    (hc : consulClient env = { trace := ct, result := none }) :
    start env = { trace := ct, result := none } := by
  simp [start, bind, Run.andThen, hc]

/-- Once consul has answered, `start` is its closed form. -/
theorem start_of_consul_ok (env : Env) (ct : List Event) (client : Client)
    (hc : consulClient env = { trace := ct, result := some client }) :
    start env = startAfterConsul env ct client := by
  simp only [start, sync, apiStart, discoveredUrl, bind, pure, Run.andThen, Run.emit, Run.ret,
    Run.Fatalf, Run.Fatal, hc, startAfterConsul, marathonUrl, mesosUrl, zkUrls, discovery,
    marathonCall, mesosCall, startInstall, listenerExit]
  by_cases hm : env.viper.GetString "marathon" = "" <;>
  by_cases hs : env.viper.GetString "mesos" = "" <;>
  by_cases hz : env.viper.GetString "zookeeper" = "" <;>
  simp [hm, hs, hz] <;>
  split <;> simp <;> split <;> simp <;> split <;> simp

/-- The function `sync` with no `Install`, when consul cannot be reached. -/
theorem sync_nil_of_consul_fatal (env : Env) (force : Bool) (ct : List Event)
    (hc : consulClient env = { trace := ct, result := none }) :
    sync env none force = { trace := ct, result := none } := by
  simp [sync, bind, Run.andThen, hc]

/-- The function `sync` with no `Install`, once consul has answered. -/
theorem sync_nil_of_consul_ok (env : Env) (force : Bool) (ct : List Event) (client : Client)
    (hc : consulClient env = { trace := ct, result := some client }) :
    sync env none force =
      { trace := ct ++
          [ .NewInstall { client := client, marathon := none, mesos := none, zookeeper := none },
            .SyncSources { client := client, marathon := none, mesos := none, zookeeper := none }
              sources force ],
        result := some () } := by
  simp [sync, bind, pure, Run.andThen, Run.emit, Run.ret, hc]

/-- The function `sync` with an `Install` makes the one call. -/
theorem sync_some (env : Env) (force : Bool) (inst : Install) :
    sync env (some inst) force =
      { trace := [.SyncSources inst sources force], result := some () } := by
  simp [sync, bind, pure, Run.andThen, Run.emit, Run.ret]

/-- Splitting never gives the empty list. -/
theorem splitComma_ne_nil (l : List Char) : splitComma l ≠ [] := by
  cases l with
  | nil => simp [splitComma]
  | cons c cs =>
    simp only [splitComma]
    split
    · simp
    · split <;> simp

/-- Joining what was split gives back the characters. -/
theorem joinComma_splitComma (l : List Char) : joinComma (splitComma l) = l := by
  induction l with
  | nil => rfl
  | cons c cs ih =>
    cases h : splitComma cs with
    | nil => exact absurd h (splitComma_ne_nil cs)
    | cons w ws =>
      rw [h] at ih
      by_cases hc : c = ','
      · subst hc
        simp [splitComma, h, joinComma, ih]
      · simp only [splitComma, hc, if_false, h]
        cases ws with
        | nil => simpa [joinComma] using ih
        | cons w' ws' => simpa [joinComma] using ih

/-- Joining what `strings.Split` gave returns the string. -/
theorem Join_Split (s : String) : Join (Split s) = s := by
  simp [Join, Split, List.map_map, Function.comp_def, joinComma_splitComma]

/-- Every effect of `start` is an effect of the consul connection (or a fatal log of a
constructor), or one of the calls made after consul has answered. -/
theorem mem_start_trace (env : Env) (e : Event) (h : e ∈ (start env).trace) :
    e.isConsul = true ∨
    ∃ client, (consulClient env).result = some client ∧
      (e ∈ discovery env "marathon" "" "http" "" ∨ e = marathonCall env client ∨
       e ∈ discovery env "mesos" "leader" "http" "http://localhost:5050" ∨
       e = mesosCall env client ∨
       e ∈ discovery env "zookeeper" "" "" "localhost:2181" ∨
       e = .NewZookeeper (Split (zkUrls env client)) ∨
       e = .NewInstall (startInstall env client) ∨
       e = .SyncSources (startInstall env client) sources (env.viper.GetBool "force-sync") ∨
       e = .ApiStart (env.viper.GetString "listen") (startInstall env client) ∨
       e = .Info "Starting listener" ∨
       e = .ListenAndServe (env.viper.GetString "listen") ∨
       ∃ msg, e = .Fatal msg) := by
  have hev := consulClient_events env
  rcases hcr : consulClient env with ⟨ct, cr⟩
  rw [hcr] at hev
  cases cr with
  | none =>
    rw [start_of_consul_fatal env ct hcr] at h
    exact Or.inl (hev _ h)
  | some client =>
    rw [start_of_consul_ok env ct client hcr] at h
    by_cases hct : e ∈ ct
    · exact Or.inl (hev _ hct)
    · simp only [startAfterConsul] at h
      split at h
      · simp [hct] at h
        rcases h with h | h | h
        · exact Or.inr ⟨client, rfl, Or.inl h⟩
        · exact Or.inr ⟨client, rfl, Or.inr (Or.inl h)⟩
        · subst h; exact Or.inl rfl
      · split at h
        · simp [hct] at h
          rcases h with h | h | h | h | h
          · exact Or.inr ⟨client, rfl, Or.inl h⟩
          · exact Or.inr ⟨client, rfl, Or.inr (Or.inl h)⟩
          · exact Or.inr ⟨client, rfl, Or.inr (Or.inr (Or.inl h))⟩
          · exact Or.inr ⟨client, rfl, Or.inr (Or.inr (Or.inr (Or.inl h)))⟩
          · subst h; exact Or.inl rfl
        · have hl : e ∈ listenerExit env → ∃ msg, e = Event.Fatal msg := by
            intro hin
            simp only [listenerExit] at hin
            split at hin
            · simp at hin; exact ⟨_, hin⟩
            · simp at hin
          refine Or.inr ⟨client, rfl, ?_⟩
          by_cases hle : e ∈ listenerExit env
          · have := hl hle
            tauto
          · simp [hct, hle] at h
            tauto

/-- No effect of the consul connection is the call of `Start()`. -/
theorem any_isApiStart_of_isConsul (l : List Event) (h : ∀ e ∈ l, e.isConsul = true) :
    l.any Event.isApiStart = false := by
  rw [List.any_eq_false]
  intro e he
  have := h e he
  cases e <;> simp [Event.isConsul, Event.isApiStart] at this ⊢

/-- A discovery is not the call of `Start()`. -/
theorem any_isApiStart_discovery (env : Env) (service tag scheme d : String) :
    (discovery env service tag scheme d).any Event.isApiStart = false := by
  simp only [discovery]
  split <;> simp [Event.isApiStart]

/-- When `start` reaches the listener, its effects are those of the consul connection
followed by the three constructors (each after its discovery, if any), the synchronisation,
the listener and the way the listener ends. -/
theorem start_trace_of_reachesListener (env : Env) (h : reachesListener env = true) :
    ∃ ct client, consulClient env = { trace := ct, result := some client } ∧
      (start env).trace =
        ct ++ discovery env "marathon" "" "http" "" ++ [marathonCall env client] ++
          discovery env "mesos" "leader" "http" "http://localhost:5050" ++
          [mesosCall env client] ++
          discovery env "zookeeper" "" "" "localhost:2181" ++
          [ .NewZookeeper (Split (zkUrls env client)),
            .NewInstall (startInstall env client),
            .SyncSources (startInstall env client) sources (env.viper.GetBool "force-sync"),
            .ApiStart (env.viper.GetString "listen") (startInstall env client),
            .Info "Starting listener",
            .ListenAndServe (env.viper.GetString "listen") ] ++ listenerExit env := by
  have hev := consulClient_events env
  rcases hcr : consulClient env with ⟨ct, cr⟩
  rw [hcr] at hev
  have hct := any_isApiStart_of_isConsul ct hev
  simp only [reachesListener] at h
  cases cr with
  | none =>
    rw [start_of_consul_fatal env ct hcr] at h
    simp [hct] at h
  | some client =>
    refine ⟨ct, client, rfl, ?_⟩
    rw [start_of_consul_ok env ct client hcr] at h ⊢
    simp only [startAfterConsul] at h ⊢
    split at h
    · simp [hct, any_isApiStart_discovery, marathonCall, Event.isApiStart] at h
    · split at h
      · simp [hct, any_isApiStart_discovery, marathonCall, mesosCall, Event.isApiStart] at h
      · rename_i h1 _ h2
        simp [h1, h2]

/-- A run of `start` that does not exit has reached the listener. -/
theorem reachesListener_of_not_fatal (env : Env) (h : (start env).fatal = false) :
    reachesListener env = true := by
  rcases hcr : consulClient env with ⟨ct, cr⟩
  simp only [reachesListener]
  cases cr with
  | none =>
    rw [start_of_consul_fatal env ct hcr] at h
    simp [Run.fatal] at h
  | some client =>
    rw [start_of_consul_ok env ct client hcr] at h ⊢
    simp only [startAfterConsul] at h ⊢
    split at h
    · simp [Run.fatal] at h
    · split at h
      · simp [Run.fatal] at h
      · rename_i h1 _ h2
        simp [h1, h2, Event.isApiStart]

/-- The events of the consul connection are no discovery, constructor or synchronisation. -/
theorem isConsul_cases (e : Event) (h : e.isConsul = true) :
    (∀ s tag sch d, e ≠ .NewDiscovery s tag sch d) ∧
    (∀ u p w b, e ≠ .NewMarathon u p w b) ∧ (∀ u p w b, e ≠ .NewMesos u p w b) ∧
    (∀ servers, e ≠ .NewZookeeper servers) ∧ (∀ i srcs f, e ≠ .SyncSources i srcs f) := by
  cases e <;> simp [Event.isConsul] at h ⊢

/-- C10: every discovery that `start` runs is one of three calls: for marathon with the
empty string as the default address, for mesos with `http://localhost:5050`, for zookeeper
with `localhost:2181`. When `start` reaches the listener, each service with no configured
address has its discovery among the effects, and with no marathon address configured the
address handed to `marathon.NewMarathon` is what discovery answers when it is given the empty
default: there is no non-empty static address for it to fall back on. -/
theorem start_discovery_defaults (env : Env) :
    (∀ s tag sch d, Event.NewDiscovery s tag sch d ∈ (start env).trace →
      (s = "marathon" ∧ tag = "" ∧ sch = "http" ∧ d = "") ∨
      (s = "mesos" ∧ tag = "leader" ∧ sch = "http" ∧ d = "http://localhost:5050") ∨
      (s = "zookeeper" ∧ tag = "" ∧ sch = "" ∧ d = "localhost:2181")) ∧
    (reachesListener env = true →
      (env.viper.GetString "marathon" = "" →
        Event.NewDiscovery "marathon" "" "http" "" ∈ (start env).trace) ∧
      (env.viper.GetString "mesos" = "" →
        Event.NewDiscovery "mesos" "leader" "http" "http://localhost:5050" ∈
          (start env).trace) ∧
      (env.viper.GetString "zookeeper" = "" →
        Event.NewDiscovery "zookeeper" "" "" "localhost:2181" ∈ (start env).trace)) ∧
    (∀ client, (consulClient env).result = some client →
      env.viper.GetString "marathon" = "" →
      ∀ url user pw nv, Event.NewMarathon url user pw nv ∈ (start env).trace →
        url = env.NewDiscovery client "marathon" "" "http" "") := by
  refine ⟨?_, ?_, ?_⟩
  · intro s tag sch d h
    rcases mem_start_trace env _ h with hc | ⟨client, -, h⟩
    · exact absurd rfl ((isConsul_cases _ hc).1 s tag sch d)
    · simp [discovery, marathonCall, mesosCall] at h
      tauto
  · intro hf
    obtain ⟨ct, client, -, ht⟩ := start_trace_of_reachesListener env hf
    rw [ht]
    refine ⟨?_, ?_, ?_⟩ <;> intro h0 <;> simp [discovery, h0]
  · intro client hcl hm url user pw nv h
    rcases mem_start_trace env _ h with hc | ⟨client', hcl', h⟩
    · exact absurd rfl ((isConsul_cases _ hc).2.1 url user pw nv)
    · rw [hcl] at hcl'
      cases hcl'
      simp [discovery, marathonCall, mesosCall, marathonUrl, hm] at h
      exact h.1

/-- C5: in `start`, a service whose configured address is non-empty gets that address: the
marathon and the mesos constructor receive the configured string, the zookeeper constructor
receives it split at the commas (joined again it is the configured string), and no
`NewDiscovery` is called for the service; `NewDiscovery` is called only for marathon, mesos
or zookeeper and only when the configured address of that service is empty; and when `start`
reaches the listener, each of the three constructors has been called. -/
theorem start_configured_address_wins (env : Env) :
    (env.viper.GetString "marathon" ≠ "" →
      (∀ url user pw nv, Event.NewMarathon url user pw nv ∈ (start env).trace →
        url = env.viper.GetString "marathon") ∧
      (∀ tag sch d, Event.NewDiscovery "marathon" tag sch d ∉ (start env).trace)) ∧
    (env.viper.GetString "mesos" ≠ "" →
      (∀ url user pw nv, Event.NewMesos url user pw nv ∈ (start env).trace →
        url = env.viper.GetString "mesos") ∧
      (∀ tag sch d, Event.NewDiscovery "mesos" tag sch d ∉ (start env).trace)) ∧
    (env.viper.GetString "zookeeper" ≠ "" →
      (∀ servers, Event.NewZookeeper servers ∈ (start env).trace →
        servers = Split (env.viper.GetString "zookeeper") ∧
        Join servers = env.viper.GetString "zookeeper") ∧
      (∀ tag sch d, Event.NewDiscovery "zookeeper" tag sch d ∉ (start env).trace)) ∧
    (∀ s tag sch d, Event.NewDiscovery s tag sch d ∈ (start env).trace →
      (s = "marathon" ∨ s = "mesos" ∨ s = "zookeeper") ∧ env.viper.GetString s = "") ∧
    (reachesListener env = true →
      (∃ url user pw nv, Event.NewMarathon url user pw nv ∈ (start env).trace) ∧
      (∃ url user pw nv, Event.NewMesos url user pw nv ∈ (start env).trace) ∧
      (∃ servers, Event.NewZookeeper servers ∈ (start env).trace)) := by
  have hdisc : ∀ s tag sch d, Event.NewDiscovery s tag sch d ∈ (start env).trace →
      (s = "marathon" ∨ s = "mesos" ∨ s = "zookeeper") ∧ env.viper.GetString s = "" := by
    intro s tag sch d h
    rcases mem_start_trace env _ h with hc | ⟨client, -, h⟩
    · exact absurd rfl ((isConsul_cases _ hc).1 s tag sch d)
    · simp [discovery, marathonCall, mesosCall] at h
      rcases h with h | h | h
      · obtain ⟨h0, rfl, -⟩ := h; exact ⟨Or.inl rfl, h0⟩
      · obtain ⟨h0, rfl, -⟩ := h; exact ⟨Or.inr (Or.inl rfl), h0⟩
      · obtain ⟨h0, rfl, -⟩ := h; exact ⟨Or.inr (Or.inr rfl), h0⟩
  refine ⟨?_, ?_, ?_, hdisc, ?_⟩
  · intro hne
    refine ⟨?_, fun tag sch d h => hne (hdisc _ _ _ _ h).2⟩
    intro url user pw nv h
    rcases mem_start_trace env _ h with hc | ⟨client, -, h⟩
    · exact absurd rfl ((isConsul_cases _ hc).2.1 url user pw nv)
    · simp [discovery, marathonCall, mesosCall, marathonUrl, hne] at h
      exact h.1
  · intro hne
    refine ⟨?_, fun tag sch d h => hne (hdisc _ _ _ _ h).2⟩
    intro url user pw nv h
    rcases mem_start_trace env _ h with hc | ⟨client, -, h⟩
    · exact absurd rfl ((isConsul_cases _ hc).2.2.1 url user pw nv)
    · simp [discovery, marathonCall, mesosCall, mesosUrl, hne] at h
      exact h.1
  · intro hne
    refine ⟨?_, fun tag sch d h => hne (hdisc _ _ _ _ h).2⟩
    intro servers h
    rcases mem_start_trace env _ h with hc | ⟨client, -, h⟩
    · exact absurd rfl ((isConsul_cases _ hc).2.2.2.1 servers)
    · simp [discovery, marathonCall, mesosCall, zkUrls, hne] at h
      subst h
      exact ⟨rfl, Join_Split _⟩
  · intro hf
    obtain ⟨ct, client, -, ht⟩ := start_trace_of_reachesListener env hf
    rw [ht]
    refine ⟨⟨marathonUrl env client, env.viper.GetString "marathon-user",
        env.viper.GetString "marathon-password", env.viper.GetBool "marathon-no-verify-ssl", ?_⟩,
      ⟨mesosUrl env client, env.viper.GetString "mesos-principal",
        env.viper.GetString "mesos-secret", env.viper.GetBool "mesos-no-verify-ssl", ?_⟩,
      ⟨Split (zkUrls env client), ?_⟩⟩
    · simp [marathonCall]
    · simp [mesosCall]
    · simp

/-- C6, refuted: with consul connected, an error of `marathon.NewMarathon` ends the process
in `log.Fatalf`. -/
theorem start_fatal_on_marathon_error :
    (consulClient marathonDownEnv).fatal = false ∧
    (start marathonDownEnv).fatal = true ∧
    (start marathonDownEnv).trace.getLast? =
      some (.Fatalf "Could not create marathon client: no marathon") := by
  decide

/-- The events of the consul connection are no call of `ListenAndServe`. -/
theorem isConsul_ne_ListenAndServe (e : Event) (h : e.isConsul = true) (listen : String) :
    e ≠ .ListenAndServe listen := by
  cases e <;> simp [Event.isConsul] at h ⊢

/-- With consul connected and an address that cannot be bound, `start` ends the process in
the `log.Fatal` of the listener. -/
theorem start_fatal_on_listen_error :
    (consulClient listenerDownEnv).fatal = false ∧
    (start listenerDownEnv).fatal = true ∧
    (start listenerDownEnv).trace.getLast? = some (.Fatal "address in use") := by
  decide

/-- C6, amended: `start` ends the process fatally exactly when the consul connection cannot be
established, or the call of `marathon.NewMarathon` it made returned an error, or the call of
`mesos.NewMesos` it made returned an error, or the call of `http.ListenAndServe` made by
`Start()` returned, which it does only with an error; and the consul connection cannot be
established exactly when the consul address does not parse, the client cannot be created,
or the read of the test key fails. -/
theorem start_fatal_iff (env : Env) :
    ((start env).fatal = true ↔
      (consulClient env).fatal = true ∨
      (∃ url user pw nv err, Event.NewMarathon url user pw nv ∈ (start env).trace ∧
        env.NewMarathon url user pw nv = some err) ∨
      (∃ url principal secret nv err,
        Event.NewMesos url principal secret nv ∈ (start env).trace ∧
        env.NewMesos url principal secret nv = some err) ∨
      (∃ listen err, Event.ListenAndServe listen ∈ (start env).trace ∧
        env.ListenAndServe listen = some err)) ∧
    ((consulClient env).fatal = true ↔
      (∃ err, env.ParseUrl (env.viper.GetString "consul") = .error err) ∨
      (∃ scheme address, env.ParseUrl (env.viper.GetString "consul") = .ok (scheme, address) ∧
        ((∃ err, env.NewClient scheme address = some err) ∨
         (∃ err, env.KVGet { scheme := scheme, address := address } "mantl-install"
            = some err)))) := by
  constructor
  · have hev := consulClient_events env
    rcases hcr : consulClient env with ⟨ct, cr⟩
    rw [hcr] at hev
    cases cr with
    | none =>
      rw [start_of_consul_fatal env ct hcr]
      simp [Run.fatal]
    | some client =>
      have hM : ∀ url user pw nv, Event.NewMarathon url user pw nv ∉ ct := fun _ _ _ _ h =>
        absurd rfl ((isConsul_cases _ (hev _ h)).2.1 _ _ _ _)
      have hS : ∀ url user pw nv, Event.NewMesos url user pw nv ∉ ct := fun _ _ _ _ h =>
        absurd rfl ((isConsul_cases _ (hev _ h)).2.2.1 _ _ _ _)
      have hL : ∀ listen, Event.ListenAndServe listen ∉ ct := fun _ h =>
        absurd rfl (isConsul_ne_ListenAndServe _ (hev _ h) _)
      rw [start_of_consul_ok env ct client hcr]
      simp only [startAfterConsul]
      split
      · rename_i err h1
        simp only [Run.fatal, Option.isNone_none, true_iff]
        refine Or.inr (Or.inl ⟨_, _, _, _, err, ?_, h1⟩)
        simp [marathonCall]
      · rename_i h1
        split
        · rename_i err h2
          simp only [Run.fatal, Option.isNone_none, true_iff]
          refine Or.inr (Or.inr (Or.inl ⟨_, _, _, _, err, ?_, h2⟩))
          simp [mesosCall]
        · rename_i h2
          cases hl : env.ListenAndServe (env.viper.GetString "listen") with
          | some err =>
            simp only [Run.fatal, Option.isNone_none, true_iff]
            refine Or.inr (Or.inr (Or.inr ⟨_, err, ?_, hl⟩))
            simp
          | none =>
            simp only [Run.fatal, Option.isNone_some, Bool.false_eq_true, false_iff, not_or,
              not_exists, not_and, not_false_eq_true, true_and, listenerExit, hl,
              List.append_nil]
            refine ⟨?_, ?_, ?_⟩
            · intro url user pw nv err hin
              simp [hM, discovery, marathonCall, mesosCall] at hin
              obtain ⟨rfl, rfl, rfl, rfl⟩ := hin
              rw [h1]
              simp
            · intro url user pw nv err hin
              simp [hS, discovery, marathonCall, mesosCall] at hin
              obtain ⟨rfl, rfl, rfl, rfl⟩ := hin
              rw [h2]
              simp
            · intro listen err hin
              simp [hL, discovery, marathonCall, mesosCall] at hin
              subst hin
              rw [hl]
              simp
  · simp only [consulClient, testConsul, bind, pure, Run.andThen, Run.emit, Run.ret, Run.Fatalf,
      Run.fatal]
    cases hp : env.ParseUrl (env.viper.GetString "consul") with
    | error err => simp
    | ok sa =>
      obtain ⟨scheme, address⟩ := sa
      cases hn : env.NewClient scheme address with
      | some err =>
        simp only [hn]
        simp
        exact ⟨scheme, address, ⟨rfl, rfl⟩, Or.inl ⟨err, hn⟩⟩
      | none =>
        cases hk : env.KVGet { scheme := scheme, address := address } "mantl-install" with
        | some err =>
          simp only [hn, hk]
          simp
          exact ⟨scheme, address, ⟨rfl, rfl⟩, Or.inr ⟨err, hk⟩⟩
        | none => simp [hn, hk]

/-- C8: every `SyncSources` call of the `sync` subcommand has `force = true` and the source
list of `sync`; every `SyncSources` call of `start` has `force` equal to the value of
`force-sync` and the same source list; the subcommand makes the call when it does not exit,
`start` whenever it reaches the listener; and `force-sync` is false when it is not set. -/
theorem sync_force_argument (env : Env) :
    (∀ inst srcs f, Event.SyncSources inst srcs f ∈ (syncCommand env).trace →
      f = true ∧ srcs = sources) ∧
    (∀ inst srcs f, Event.SyncSources inst srcs f ∈ (start env).trace →
      f = env.viper.GetBool "force-sync" ∧ srcs = sources) ∧
    ((syncCommand env).fatal = false →
      ∃ inst, Event.SyncSources inst sources true ∈ (syncCommand env).trace) ∧
    (reachesListener env = true →
      ∃ inst, Event.SyncSources inst sources (env.viper.GetBool "force-sync") ∈
        (start env).trace) ∧
    (env.viper.set.lookup "force-sync" = none → env.viper.GetBool "force-sync" = false) := by
  have hev := consulClient_events env
  refine ⟨?_, ?_, ?_, ?_, ?_⟩
  · intro inst srcs f h
    rcases hcr : consulClient env with ⟨ct, cr⟩
    rw [hcr] at hev
    have hct : Event.SyncSources inst srcs f ∉ ct := fun h =>
      absurd rfl ((isConsul_cases _ (hev _ h)).2.2.2.2 _ _ _)
    cases cr with
    | none =>
      rw [syncCommand, sync_nil_of_consul_fatal env true ct hcr] at h
      exact absurd h hct
    | some client =>
      rw [syncCommand, sync_nil_of_consul_ok env true ct client hcr] at h
      simp [hct] at h
      exact ⟨h.2.2, h.2.1⟩
  · intro inst srcs f h
    rcases mem_start_trace env _ h with hc | ⟨client, -, h⟩
    · exact absurd rfl ((isConsul_cases _ hc).2.2.2.2 _ _ _)
    · simp [discovery, marathonCall, mesosCall] at h
      exact ⟨h.2.2, h.2.1⟩
  · intro hf
    rcases hcr : consulClient env with ⟨ct, cr⟩
    cases cr with
    | none =>
      rw [syncCommand, sync_nil_of_consul_fatal env true ct hcr] at hf
      simp [Run.fatal] at hf
    | some client =>
      rw [syncCommand, sync_nil_of_consul_ok env true ct client hcr]
      exact ⟨{ client := client, marathon := none, mesos := none, zookeeper := none },
        by simp⟩
  · intro hf
    obtain ⟨ct, client, -, ht⟩ := start_trace_of_reachesListener env hf
    rw [ht]
    exact ⟨startInstall env client, by simp⟩
  · intro hunset
    simp [Viper.GetBool, Viper.find, hunset, persistentFlags, List.lookup]

/-- C9: whatever `force` is and whether or not an `Install` is supplied, the source list of
every `SyncSources` call of `sync` has three entries with pairwise distinct indices, the
indices are exactly 0, 1 and 2, index 0 is `mesosphere`, index 1 is `mantl`, index 2 is
`mesosphere-multiverse`, and the source of least index is `mesosphere`; the call is made
whenever `sync` does not exit, and always when an `Install` is supplied. -/
theorem sync_sources_indices (env : Env) (inst : Option Install) (force : Bool) :
    (∀ i srcs f, Event.SyncSources i srcs f ∈ (sync env inst force).trace →
      srcs.length = 3 ∧
      (srcs.map (fun s => s.Index)).Nodup ∧
      (∀ k : Int, k ∈ srcs.map (fun s => s.Index) ↔ k = 0 ∨ k = 1 ∨ k = 2) ∧
      (∀ s ∈ srcs, (s.Index = 0 ↔ s.Name = "mesosphere") ∧ (s.Index = 1 ↔ s.Name = "mantl") ∧
        (s.Index = 2 ↔ s.Name = "mesosphere-multiverse")) ∧
      (∃ s ∈ srcs, s.Name = "mesosphere" ∧ ∀ t ∈ srcs, s.Index ≤ t.Index) ∧
      (∀ s ∈ srcs, (∀ t ∈ srcs, s.Index ≤ t.Index) → s.Name = "mesosphere")) ∧
    ((sync env inst force).fatal = false →
      ∃ i, Event.SyncSources i sources force ∈ (sync env inst force).trace) ∧
    (∀ i, inst = some i → (sync env inst force).trace = [.SyncSources i sources force]) := by
  have hsrc : ∀ i srcs f, Event.SyncSources i srcs f ∈ (sync env inst force).trace →
      srcs = sources := by
    intro i srcs f h
    cases inst with
    | some j =>
      rw [sync_some] at h
      simp at h
      exact h.2.1
    | none =>
      have hev := consulClient_events env
      rcases hcr : consulClient env with ⟨ct, cr⟩
      rw [hcr] at hev
      have hct : Event.SyncSources i srcs f ∉ ct := fun h =>
        absurd rfl ((isConsul_cases _ (hev _ h)).2.2.2.2 _ _ _)
      cases cr with
      | none =>
        rw [sync_nil_of_consul_fatal env force ct hcr] at h
        exact absurd h hct
      | some client =>
        rw [sync_nil_of_consul_ok env force ct client hcr] at h
        simp [hct] at h
        exact h.2.1
  refine ⟨?_, ?_, ?_⟩
  · intro i srcs f h
    rw [hsrc i srcs f h]
    refine ⟨rfl, by decide, ?_, ?_, ?_, ?_⟩
    · intro k
      simp [sources]
      tauto
    · intro s hs
      simp [sources] at hs
      rcases hs with rfl | rfl | rfl <;> decide
    · refine ⟨_, List.mem_cons_of_mem _ (List.mem_cons_self _ _), rfl, ?_⟩
      intro t ht
      simp [sources] at ht
      rcases ht with rfl | rfl | rfl <;> decide
    · intro s hs hmin
      simp [sources] at hs
      rcases hs with rfl | rfl | rfl
      · have := hmin _ (List.mem_cons_of_mem _ (List.mem_cons_self _ _))
        simp at this
      · rfl
      · have := hmin _ (List.mem_cons_self _ _)
        simp at this
  · intro hf
    cases inst with
    | some j =>
      rw [sync_some]
      exact ⟨j, by simp⟩
    | none =>
      rcases hcr : consulClient env with ⟨ct, cr⟩
      cases cr with
      | none =>
        rw [sync_nil_of_consul_fatal env force ct hcr] at hf
        simp [Run.fatal] at hf
      | some client =>
        rw [sync_nil_of_consul_ok env force ct client hcr]
        exact ⟨{ client := client, marathon := none, mesos := none, zookeeper := none },
          by simp⟩
  · intro i hi
    subst hi
    rw [sync_some]

/-- The witness of C5: with the three addresses configured, no discovery runs and the
constructors are called. -/
theorem start_configured_address_wins_witness :
    (∀ tag sch d, Event.NewDiscovery "marathon" tag sch d ∉ (start configuredEnv).trace) ∧
    (∀ tag sch d, Event.NewDiscovery "mesos" tag sch d ∉ (start configuredEnv).trace) ∧
    (["zk1:2181", "zk2:2181"] = Split (configuredEnv.viper.GetString "zookeeper") ∧
      Join ["zk1:2181", "zk2:2181"] = configuredEnv.viper.GetString "zookeeper") ∧
    ((∃ url user pw nv, Event.NewMarathon url user pw nv ∈ (start configuredEnv).trace) ∧
      (∃ url user pw nv, Event.NewMesos url user pw nv ∈ (start configuredEnv).trace) ∧
      (∃ servers, Event.NewZookeeper servers ∈ (start configuredEnv).trace)) :=
  ⟨((start_configured_address_wins configuredEnv).1 (by decide)).2,
   ((start_configured_address_wins configuredEnv).2.1 (by decide)).2,
   ((start_configured_address_wins configuredEnv).2.2.1 (by decide)).1
      ["zk1:2181", "zk2:2181"] (by decide),
   (start_configured_address_wins configuredEnv).2.2.2.2 (by decide)⟩

/-- The witness of C10: with nothing configured, the three discoveries run, marathon's with
the empty default. -/
theorem start_discovery_defaults_witness :
    Event.NewDiscovery "marathon" "" "http" "" ∈ (start (sampleEnv [])).trace ∧
    Event.NewDiscovery "mesos" "leader" "http" "http://localhost:5050" ∈
      (start (sampleEnv [])).trace ∧
    Event.NewDiscovery "zookeeper" "" "" "localhost:2181" ∈ (start (sampleEnv [])).trace ∧
    "discovered-marathon" = (sampleEnv []).NewDiscovery
      { scheme := "http", address := "localhost:8500" } "marathon" "" "http" "" :=
  ⟨((start_discovery_defaults (sampleEnv [])).2.1 (by decide)).1 (by decide),
   ((start_discovery_defaults (sampleEnv [])).2.1 (by decide)).2.1 (by decide),
   ((start_discovery_defaults (sampleEnv [])).2.1 (by decide)).2.2 (by decide),
   (start_discovery_defaults (sampleEnv [])).2.2
     { scheme := "http", address := "localhost:8500" } (by decide) (by decide)
     "discovered-marathon" "" "" false (by decide)⟩

/-- The witness of C8: with `force-sync` not set, the subcommand forces and `start` does not. -/
theorem sync_force_argument_witness :
    (∃ inst, Event.SyncSources inst sources true ∈ (syncCommand (sampleEnv [])).trace) ∧
    (∃ inst, Event.SyncSources inst sources ((sampleEnv []).viper.GetBool "force-sync") ∈
      (start (sampleEnv [])).trace) ∧
    (sampleEnv []).viper.GetBool "force-sync" = false :=
  ⟨(sync_force_argument (sampleEnv [])).2.2.1 (by decide),
   (sync_force_argument (sampleEnv [])).2.2.2.1 (by decide),
   (sync_force_argument (sampleEnv [])).2.2.2.2 (by decide)⟩

/-- The witness of C9: the `sync` subcommand, with no `Install`, makes the call. -/
theorem sync_sources_indices_witness :
    ∃ i, Event.SyncSources i sources true ∈ (sync (sampleEnv []) none true).trace :=
  (sync_sources_indices (sampleEnv []) none true).2.1 (by decide)


end Main

end MantlApi
